import Mathlib

/-!
Verification of the mission-orchestration core of sandboxed.sh.

The definitions below are a shallow embedding of the Rust sources:
  * src/api/mission_runner.rs   (MissionRunner, its operations, the Claude
    Code turn loop run_claudecode_turn)
  * src/agents/opencode.rs      (stall detector and recovery loop)
  * src/api/control.rs          (FrontendToolHub, control actor tool-result
    handling)
  * src/backend/amp/mod.rs and src/backend/claudecode/mod.rs
    (adapter event-conversion loops)

External effects (time, the spawned backend process, the filesystem, channel
scheduling) are modelled as explicit inputs; machine ids (Uuid) are modelled
as Nat; timestamps (Instant) as Nat seconds.
-/

namespace Sandboxed

/-- Rust str contains helper: does the pattern occur at the head of the list. -/
def leadsWith : List Char → List Char → Bool
  | _, [] => true
  | [], _ :: _ => false
  | c :: cs, p :: ps => (c = p) && leadsWith cs ps

/-- Rust str contains helper: does the pattern occur anywhere in the list. -/
def hasSub : List Char → List Char → Bool
  | [], pat => pat.isEmpty
  | c :: rest, pat => leadsWith (c :: rest) pat || hasSub rest pat

/-- Embedding of Rust str::contains (substring occurrence). -/
def strContains (hay pat : String) : Bool :=
  hasSub hay.data pat.data

/-- TerminalReason from src/agents (closed tag set, per the spec data model). -/
inductive TerminalReason
  | Completed
  | Cancelled
  | BudgetExhausted
  | MaxIterationsReached
  | LlmError
  | Stalled
deriving DecidableEq, Repr

/-- AgentResult from src/agents: outcome of one executed turn. -/
structure AgentResult where
  success : Bool
  output : String
  cost_cents : Nat
  model_used : Option String
  data : Option String := none
  terminal_reason : Option TerminalReason := none
deriving DecidableEq, Repr

/-- AgentResult::failure constructor. -/
def AgentResult.failure (msg : String) (cost : Nat) : AgentResult :=
  { success := false, output := msg, cost_cents := cost, model_used := none }

/-- AgentResult::success constructor (named successResult to avoid clashing
with the success field). -/
def AgentResult.successResult (msg : String) (cost : Nat) : AgentResult :=
  { success := true, output := msg, cost_cents := cost, model_used := none }

/-- AgentResult::with_terminal_reason. -/
def AgentResult.with_terminal_reason (r : AgentResult) (t : TerminalReason) : AgentResult :=
  { r with terminal_reason := some t }

/-- MissionRunState from src/api/mission_runner.rs. -/
inductive MissionRunState
  | Queued
  | Running
  | WaitingForTool
  | Finished
deriving DecidableEq, Repr

/-- The Debug rendering of a MissionRunState (used by check_health). -/
def MissionRunState.debugName : MissionRunState → String
  | .Queued => "Queued"
  | .Running => "Running"
  | .WaitingForTool => "WaitingForTool"
  | .Finished => "Finished"

/-- MissionHealth from src/api/mission_runner.rs. -/
inductive MissionHealth
  | Healthy
  | Stalled (seconds_since_activity : Nat) (last_state : String)
  | MissingDeliverables (missing : List String)
  | UnexpectedEnd (reason : String)
deriving DecidableEq, Repr

/-- QueuedMessage from src/api/mission_runner.rs (Uuid modelled as Nat). -/
structure QueuedMessage where
  id : Nat
  content : String
  agent : Option String
deriving DecidableEq, Repr

/-- The data captured by the turn spawned in start_next: the message id and
the user message text, which poll_completion receives back together with the
AgentResult. -/
structure InflightTurn where
  msg_id : Nat
  user_message : String
deriving DecidableEq, Repr

/-- MissionRunner from src/api/mission_runner.rs.  The cancellation token is
modelled as its cancelled flag; the running JoinHandle as the captured
InflightTurn data; last_activity as a Nat timestamp.  The deliverable set is
the list of extracted deliverable markers (src/task/deliverables.rs holds the
extraction heuristics; check_health only consults emptiness and the externally
computed missing paths). -/
structure MissionRunner where
  mission_id : Nat
  workspace_id : Nat
  backend_id : String
  state : MissionRunState
  agent_override : Option String
  queue : List QueuedMessage
  history : List (String × String)
  cancel_token : Option Bool
  running_handle : Option InflightTurn
  deliverables : List String
  last_activity : Nat
  explicitly_completed : Bool
deriving DecidableEq, Repr

namespace MissionRunner

/-- MissionRunner::new. -/
def new (mission_id workspace_id : Nat) (agent_override : Option String)
    (backend_id : Option String) : MissionRunner :=
  { mission_id := mission_id
    workspace_id := workspace_id
    backend_id := backend_id.getD "opencode"
    state := .Queued
    agent_override := agent_override
    queue := []
    history := []
    cancel_token := none
    running_handle := none
    deliverables := []
    last_activity := 0
    explicitly_completed := false }

/-- MissionRunner::is_running. -/
def is_running (r : MissionRunner) : Bool :=
  match r.state with
  | .Running => true
  | .WaitingForTool => true
  | _ => false

/-- MissionRunner::touch (now is the current time, externally supplied). -/
def touch (r : MissionRunner) (now : Nat) : MissionRunner :=
  { r with last_activity := now }

/-- MissionRunner::check_health.  seconds_since is last_activity.elapsed();
missing is the externally computed deliverables.missing_paths() result (the
filesystem check lives in the out-of-scope Deliverable Extractor). -/
def check_health (r : MissionRunner) (seconds_since : Nat) (missing : List String) :
    MissionHealth :=
  if r.is_running && decide (seconds_since > 60) then
    .Stalled seconds_since r.state.debugName
  else if !r.is_running && !r.explicitly_completed && !r.deliverables.isEmpty
      && !missing.isEmpty then
    .MissingDeliverables missing
  else
    .Healthy

/-- MissionRunner::set_initial_message; the extracted deliverable set is the
input (extract_deliverables lives in src/task/deliverables.rs). -/
def set_initial_message (r : MissionRunner) (extracted : List String) : MissionRunner :=
  { r with deliverables := extracted }

/-- MissionRunner::queue_message. -/
def queue_message (r : MissionRunner) (id : Nat) (content : String)
    (agent : Option String) : MissionRunner :=
  { r with queue := r.queue ++ [{ id := id, content := content, agent := agent }] }

/-- MissionRunner::cancel: signal the token if present, otherwise do nothing. -/
def cancel (r : MissionRunner) : MissionRunner :=
  match r.cancel_token with
  | some _ => { r with cancel_token := some true }
  | none => r

/-- MissionRunner::start_next: refuse when already running or the queue is
empty; otherwise pop the oldest message, set Running, create a fresh token and
record the spawned turn. -/
def start_next (r : MissionRunner) : MissionRunner × Bool :=
  if r.is_running then (r, false)
  else
    match r.queue with
    | [] => (r, false)
    | m :: rest =>
        ({ r with state := .Running
                  queue := rest
                  cancel_token := some false
                  running_handle := some { msg_id := m.id, user_message := m.content } },
         true)

/-- The scheduler-side information poll_completion observes about the spawned
task: still running, finished with a result, or a join error. -/
inductive PollOutcome
  | notFinished
  | finished (res : AgentResult)
  | joinError
deriving DecidableEq, Repr

/-- MissionRunner::poll_completion. -/
def poll_completion (r : MissionRunner) (now : Nat) (outcome : PollOutcome) :
    MissionRunner × Option (Nat × String × AgentResult) :=
  match r.running_handle with
  | none => (r, none)
  | some turn =>
    match outcome with
    | .notFinished => (r, none)
    | .joinError => ({ r with running_handle := none, state := .Finished }, none)
    | .finished res =>
        let ec := r.explicitly_completed
          || strContains res.output "Mission marked as"
          || strContains res.output "complete_mission"
        ({ r with running_handle := none
                  last_activity := now
                  state := .Queued
                  explicitly_completed := ec
                  history := r.history
                    ++ [("user", turn.user_message), ("assistant", res.output)] },
         some (turn.msg_id, turn.user_message, res))

end MissionRunner

/-- One externally triggered runner operation, carrying the data the
environment supplies (time, poll outcomes, extracted deliverables). -/
inductive Op
  | queueMessage (id : Nat) (content : String) (agent : Option String)
  | startNext
  | cancel
  | touch (now : Nat)
  | setInitialMessage (extracted : List String)
  | pollCompletion (now : Nat) (outcome : MissionRunner.PollOutcome)
deriving DecidableEq, Repr

/-- Apply one operation to a runner. -/
def applyOp (r : MissionRunner) : Op → MissionRunner
  | .queueMessage id content agent => r.queue_message id content agent
  | .startNext => (r.start_next).1
  | .cancel => r.cancel
  | .touch now => r.touch now
  | .setInitialMessage ds => r.set_initial_message ds
  | .pollCompletion now outcome => (r.poll_completion now outcome).1

/-- Run a sequence of operations. -/
def runOps (r : MissionRunner) (ops : List Op) : MissionRunner :=
  ops.foldl applyOp r

theorem start_next_of_running (r : MissionRunner) (h : r.is_running = true) :
    r.start_next = (r, false) := by
  simp [MissionRunner.start_next, h]

theorem start_next_of_empty_queue (r : MissionRunner) (h : r.queue = []) :
    r.start_next = (r, false) := by
  unfold MissionRunner.start_next
  rw [h]
  split <;> rfl

theorem start_next_of_ready (r : MissionRunner) (m : QueuedMessage)
    (rest : List QueuedMessage) (h1 : r.is_running = false) (h2 : r.queue = m :: rest) :
    r.start_next =
      ({ r with state := .Running
                queue := rest
                cancel_token := some false
                running_handle := some { msg_id := m.id, user_message := m.content } },
       true) := by
  unfold MissionRunner.start_next
  rw [h2, if_neg]
  simp [h1]

/-- The single-writer invariant tying the in-flight handle to the run state. -/
def handleInv (r : MissionRunner) : Prop :=
  r.running_handle.isSome = true → r.is_running = true

theorem handleInv_new (mid wid : Nat) (ao bid : Option _) :
    handleInv (MissionRunner.new mid wid ao bid) := by
  intro h
  simp [MissionRunner.new, Option.isSome] at h

theorem handleInv_applyOp (r : MissionRunner) (op : Op) (h : handleInv r) :
    handleInv (applyOp r op) := by
  cases op with
  | queueMessage id content agent =>
      intro hs
      exact h hs
  | startNext =>
      have hd : ((r.start_next).1).is_running = true ∨ (r.start_next).1 = r := by
        cases hr : r.is_running with
        | true => right; rw [start_next_of_running r hr]
        | false =>
            cases hq : r.queue with
            | nil => right; rw [start_next_of_empty_queue r hq]
            | cons m rest =>
                left
                rw [start_next_of_ready r m rest hr hq]
                rfl
      cases hd with
      | inl hrun =>
          intro _
          simpa [applyOp] using hrun
      | inr heq =>
          show handleInv (r.start_next).1
          rw [heq]
          exact h
  | cancel =>
      unfold applyOp MissionRunner.cancel
      cases r.cancel_token with
      | none => exact h
      | some b =>
          intro hs
          exact h hs
  | touch now =>
      intro hs
      exact h hs
  | setInitialMessage ds =>
      intro hs
      exact h hs
  | pollCompletion now outcome =>
      unfold applyOp MissionRunner.poll_completion
      cases hh : r.running_handle with
      | none => exact h
      | some turn =>
          cases outcome with
          | notFinished => exact h
          | joinError =>
              intro hs
              simp [Option.isSome] at hs
          | finished res =>
              intro hs
              simp [Option.isSome] at hs

theorem handleInv_runOps (r : MissionRunner) (ops : List Op) (h : handleInv r) :
    handleInv (runOps r ops) := by
  induction ops generalizing r with
  | nil => exact h
  | cons op rest ih => exact ih (applyOp r op) (handleInv_applyOp r op h)

/-- poll_completion on a finished turn: the history grows by exactly the
(user, assistant) pair of that turn. -/
theorem poll_completion_finished (r : MissionRunner) (now : Nat) (res : AgentResult)
    (t : InflightTurn) (h : r.running_handle = some t) :
    r.poll_completion now (.finished res)
      = ({ r with running_handle := none
                  last_activity := now
                  state := .Queued
                  explicitly_completed := r.explicitly_completed
                    || strContains res.output "Mission marked as"
                    || strContains res.output "complete_mission"
                  history := r.history
                    ++ [("user", t.user_message), ("assistant", res.output)] },
         some (t.msg_id, t.user_message, res)) := by
  unfold MissionRunner.poll_completion
  rw [h]

/-- Conversion of a submitted (id, content) pair into the queue entry
queue_message appends. -/
def mkQueuedMessage (p : Nat × String) : QueuedMessage :=
  { id := p.1, content := p.2, agent := none }

/-- Queue a batch of messages (each producer appends; only the runner pops). -/
def queueAll (r : MissionRunner) (msgs : List (Nat × String)) : MissionRunner :=
  msgs.foldl (fun acc p => acc.queue_message p.1 p.2 none) r

/-- One full turn: start the next queued message and let it complete with the
given result (poll_completion observing the finished handle). -/
def completeTurn (r : MissionRunner) (res : AgentResult) : MissionRunner :=
  ((r.start_next).1.poll_completion 0 (.finished res)).1

/-- Run every queued message to completion, one result per turn, in order. -/
def processAll (r : MissionRunner) (results : List AgentResult) : MissionRunner :=
  results.foldl completeTurn r

/-- The history an in-order FIFO processing of msgs against results produces. -/
def fifoHistory (msgs : List (Nat × String)) (results : List AgentResult) :
    List (String × String) :=
  ((msgs.zip results).map fun p => [("user", p.1.2), ("assistant", p.2.output)]).flatten

theorem queueAll_eq (msgs : List (Nat × String)) (r : MissionRunner) :
    queueAll r msgs = { r with queue := r.queue ++ msgs.map mkQueuedMessage } := by
  induction msgs generalizing r with
  | nil => simp [queueAll]
  | cons p ps ih =>
      show queueAll (r.queue_message p.1 p.2 none) ps = _
      rw [ih]
      simp [MissionRunner.queue_message, mkQueuedMessage]

theorem processAll_history (results : List AgentResult) (msgs : List (Nat × String))
    (r : MissionRunner) (hrun : r.is_running = false) (hh : r.running_handle = none)
    (hq : r.queue = msgs.map mkQueuedMessage) (hlen : msgs.length = results.length) :
    (processAll r results).history = r.history ++ fifoHistory msgs results := by
  induction results generalizing msgs r with
  | nil =>
      simp [processAll, fifoHistory]
  | cons res results ih =>
      cases msgs with
      | nil => simp at hlen
      | cons m ms =>
          have hq' : r.queue = mkQueuedMessage m :: ms.map mkQueuedMessage := by
            simpa using hq
          have hstart := start_next_of_ready r (mkQueuedMessage m)
            (ms.map mkQueuedMessage) hrun hq'
          have hstep : completeTurn r res
              = { r with running_handle := none
                         last_activity := 0
                         state := .Queued
                         queue := ms.map mkQueuedMessage
                         cancel_token := some false
                         explicitly_completed := r.explicitly_completed
                           || strContains res.output "Mission marked as"
                           || strContains res.output "complete_mission"
                         history := r.history
                           ++ [("user", m.2), ("assistant", res.output)] } := by
            unfold completeTurn
            rw [hstart]
            rw [poll_completion_finished _ 0 res
              { msg_id := (mkQueuedMessage m).id, user_message := (mkQueuedMessage m).content }
              rfl]
            rfl
          show (processAll (completeTurn r res) results).history = _
          rw [hstep]
          rw [ih ms _ (by rfl) (by rfl) (by rfl) (by simpa using hlen)]
          simp [fifoHistory, mkQueuedMessage]

/-- Claim C1: start_next refuses (returning false, changing nothing) while a
turn is running or waiting for a tool, and when the queue is empty; and on any
reachable runner a successful start implies the previous turn had already been
reaped, so at most one turn is ever in flight. -/
theorem start_next_single_turn :
    (∀ r : MissionRunner, r.is_running = true → r.start_next = (r, false)) ∧
    (∀ r : MissionRunner, r.queue = [] → r.start_next = (r, false)) ∧
    (∀ (mid wid : Nat) (ao bid : Option String) (ops : List Op),
      ((runOps (MissionRunner.new mid wid ao bid) ops).start_next).2 = true →
      (runOps (MissionRunner.new mid wid ao bid) ops).running_handle = none) := by
  refine ⟨start_next_of_running, start_next_of_empty_queue, ?_⟩
  intro mid wid ao bid ops hstart
  set r := runOps (MissionRunner.new mid wid ao bid) ops with hr
  have hinv : handleInv r := handleInv_runOps _ _ (handleInv_new mid wid ao bid)
  cases hrun : r.is_running with
  | true =>
      rw [start_next_of_running r hrun] at hstart
      simp at hstart
  | false =>
      cases hh : r.running_handle with
      | none => rfl
      | some t =>
          have : r.is_running = true := hinv (by rw [hh]; rfl)
          rw [this] at hrun
          cases hrun

/-- Concrete runner with an in-flight turn (for witnesses). -/
def sampleRunningRunner : MissionRunner :=
  { MissionRunner.new 1 2 none none with
      state := .Running
      running_handle := some { msg_id := 5, user_message := "hi" }
      cancel_token := some false }

/-- Witness for the C1 theorem at concrete inputs. -/
theorem start_next_single_turn_witness :
    sampleRunningRunner.start_next = (sampleRunningRunner, false) ∧
    (MissionRunner.new 1 2 none none).start_next = (MissionRunner.new 1 2 none none, false) ∧
    (runOps (MissionRunner.new 1 2 none none) [Op.queueMessage 7 "task" none]).running_handle
      = none :=
  ⟨start_next_single_turn.1 sampleRunningRunner rfl,
   start_next_single_turn.2.1 (MissionRunner.new 1 2 none none) rfl,
   start_next_single_turn.2.2 1 2 none none [Op.queueMessage 7 "task" none] rfl⟩

/-- Claim C4: start_next pops the oldest queued message and records it as the
in-flight turn; a completed turn appends exactly its (user, assistant) pair;
processing any batch of queued messages yields the history in submission
order. -/
theorem fifo_processing :
    (∀ (r : MissionRunner) (m : QueuedMessage) (rest : List QueuedMessage),
      r.is_running = false → r.queue = m :: rest →
      (r.start_next).1.queue = rest ∧ (r.start_next).2 = true ∧
      (r.start_next).1.running_handle = some { msg_id := m.id, user_message := m.content }) ∧
    (∀ (r : MissionRunner) (now : Nat) (res : AgentResult) (t : InflightTurn),
      r.running_handle = some t →
      (r.poll_completion now (.finished res)).1.history
        = r.history ++ [("user", t.user_message), ("assistant", res.output)]) ∧
    (∀ (mid wid : Nat) (ao bid : Option String) (msgs : List (Nat × String))
      (results : List AgentResult),
      msgs.length = results.length →
      (processAll (queueAll (MissionRunner.new mid wid ao bid) msgs) results).history
        = fifoHistory msgs results) := by
  refine ⟨?_, ?_, ?_⟩
  · intro r m rest h1 h2
    rw [start_next_of_ready r m rest h1 h2]
    exact ⟨rfl, rfl, rfl⟩
  · intro r now res t h
    rw [poll_completion_finished r now res t h]
  · intro mid wid ao bid msgs results hlen
    rw [queueAll_eq]
    rw [processAll_history results msgs _ (by rfl) (by rfl)
      (by simp [MissionRunner.new]) hlen]
    simp [MissionRunner.new]

/-- Witness for the C4 theorem: two messages processed in order. -/
theorem fifo_processing_witness :
    (processAll (queueAll (MissionRunner.new 1 2 none none) [(1, "first"), (2, "second")])
        [AgentResult.successResult "answer one" 0,
         AgentResult.successResult "answer two" 0]).history
      = [("user", "first"), ("assistant", "answer one"),
         ("user", "second"), ("assistant", "answer two")] := by
  rw [fifo_processing.2.2 1 2 none none [(1, "first"), (2, "second")]
    [AgentResult.successResult "answer one" 0, AgentResult.successResult "answer two" 0] rfl]
  rfl

/-- Claim C9: check_health returns Stalled with the inactivity seconds when
running past 60s; MissingDeliverables with the missing paths when finished,
not explicitly completed, with a non-empty deliverable set and missing paths;
and its result is always one of these or Healthy (so Healthy or UnexpectedEnd
in every other case). -/
theorem check_health_characterization :
    ∀ (r : MissionRunner) (s : Nat) (missing : List String),
      (r.is_running = true → 60 < s →
        r.check_health s missing = .Stalled s r.state.debugName) ∧
      (r.is_running = false → r.explicitly_completed = false →
        r.deliverables.isEmpty = false → missing.isEmpty = false →
        r.check_health s missing = .MissingDeliverables missing) ∧
      (r.check_health s missing = .Stalled s r.state.debugName ∨
       r.check_health s missing = .MissingDeliverables missing ∨
       r.check_health s missing = .Healthy) := by
  intro r s missing
  refine ⟨?_, ?_, ?_⟩
  · intro h1 h2
    simp [MissionRunner.check_health, h1, h2]
  · intro h1 h2 h3 h4
    simp [MissionRunner.check_health, h1, h2, h3, h4]
  · unfold MissionRunner.check_health
    split
    · left; rfl
    · split
      · right; left; rfl
      · right; right; rfl

/-- Concrete finished runner missing its deliverable (for the C9 witness;
mirrors the report example of the spec). -/
def sampleFinishedRunner : MissionRunner :=
  { MissionRunner.new 1 2 none none with deliverables := ["output/report.md"] }

/-- Witness for the C9 theorem at concrete inputs. -/
theorem check_health_characterization_witness :
    sampleRunningRunner.check_health 61 [] = .Stalled 61 "Running" ∧
    sampleFinishedRunner.check_health 5 ["output/report.md"]
      = .MissingDeliverables ["output/report.md"] ∧
    ((MissionRunner.new 1 2 none none).check_health 0 = fun _ => MissionHealth.Healthy) :=
  ⟨(check_health_characterization sampleRunningRunner 61 []).1 rfl (by decide),
   (check_health_characterization sampleFinishedRunner 5 ["output/report.md"]).2.1
     rfl rfl rfl rfl,
   rfl⟩

/-- Claim C10: explicitly_completed starts false, poll_completion updates it
by disjoining the two substring checks of the completed output, and no runner
operation ever takes it back from true to false. -/
theorem explicitly_completed_monotone :
    (∀ (mid wid : Nat) (ao bid : Option String),
      (MissionRunner.new mid wid ao bid).explicitly_completed = false) ∧
    (∀ (r : MissionRunner) (op : Op),
      r.explicitly_completed = true → (applyOp r op).explicitly_completed = true) ∧
    (∀ (r : MissionRunner) (now : Nat) (res : AgentResult) (t : InflightTurn),
      r.running_handle = some t →
      (r.poll_completion now (.finished res)).1.explicitly_completed
        = (r.explicitly_completed
            || strContains res.output "Mission marked as"
            || strContains res.output "complete_mission")) := by
  refine ⟨fun _ _ _ _ => rfl, ?_, ?_⟩
  · intro r op h
    cases op with
    | queueMessage id content agent => exact h
    | startNext =>
        cases hr : r.is_running with
        | true => rw [show applyOp r .startNext = (r.start_next).1 from rfl,
            start_next_of_running r hr]; exact h
        | false =>
            cases hq : r.queue with
            | nil => rw [show applyOp r .startNext = (r.start_next).1 from rfl,
                start_next_of_empty_queue r hq]; exact h
            | cons m rest =>
                rw [show applyOp r .startNext = (r.start_next).1 from rfl,
                  start_next_of_ready r m rest hr hq]
                exact h
    | cancel =>
        unfold applyOp MissionRunner.cancel
        cases r.cancel_token with
        | none => exact h
        | some b => exact h
    | touch now => exact h
    | setInitialMessage ds => exact h
    | pollCompletion now outcome =>
        unfold applyOp MissionRunner.poll_completion
        cases r.running_handle with
        | none => exact h
        | some t =>
            cases outcome with
            | notFinished => exact h
            | joinError => exact h
            | finished res =>
                show (r.explicitly_completed || _ || _) = true
                rw [h]
                rfl
  · intro r now res t h
    rw [poll_completion_finished r now res t h]

/-- Witness for the C10 theorem at concrete inputs: an output that merely
mentions complete_mission flips the flag, and a cancel on a completed runner
keeps it true. -/
theorem explicitly_completed_monotone_witness :
    (MissionRunner.new 1 2 none none).explicitly_completed = false ∧
    (applyOp { sampleRunningRunner with explicitly_completed := true } Op.cancel
      ).explicitly_completed = true ∧
    (sampleRunningRunner.poll_completion 9
        (.finished (AgentResult.successResult "I will later call complete_mission" 0))
      ).1.explicitly_completed
      = (sampleRunningRunner.explicitly_completed
          || strContains "I will later call complete_mission" "Mission marked as"
          || strContains "I will later call complete_mission" "complete_mission") :=
  ⟨explicitly_completed_monotone.1 1 2 none none,
   explicitly_completed_monotone.2.1 _ Op.cancel rfl,
   explicitly_completed_monotone.2.2 sampleRunningRunner 9
     (AgentResult.successResult "I will later call complete_mission" 0)
     { msg_id := 5, user_message := "hi" } rfl⟩

/-!
Stall detector and recovery, from OpenCodeAgent::execute and
check_for_stuck_tool in src/agents/opencode.rs.  The tokio select loop is
embedded as a deterministic step function over the inputs the loop can wake
on: an event from the current stream, the periodic stuck-check timer (with
the session-status query result and the recovery-dispatch result it observes),
the channel closing, or cancellation.  Wall-clock instants are Nat seconds.
-/

/-- TOOL_STUCK_CHECK_INTERVAL (seconds). -/
def TOOL_STUCK_CHECK_INTERVAL : Nat := 120

/-- TOOL_STUCK_TIMEOUT (seconds). -/
def TOOL_STUCK_TIMEOUT : Nat := 300

/-- Canonical OpenCode event union, from crate::opencode usage in
src/agents/opencode.rs (payloads trimmed to the fields the loop reads). -/
inductive OpenCodeEvent
  | thinking (content : String)
  | textDelta (content : String)
  | toolCall (tool_call_id : String) (name : String)
  | toolResult (tool_call_id : String) (name : String)
  | errorEvent (message : String)
  | messageComplete
deriving DecidableEq, Repr

/-- Detector configuration: the operator hard-abort timeout
(tool_stuck_abort_timeout_secs; 0 = disabled). -/
structure DetectorConfig where
  tool_stuck_abort_timeout_secs : Nat
deriving DecidableEq, Repr

/-- Mutable loop state of the streaming branch of OpenCodeAgent::execute.
streamGen counts how many times event_rx was replaced by a recovery stream. -/
structure DetectorState where
  lastEventTime : Nat
  lastStuckCheck : Nat
  stuckToolWarned : Bool
  currentTool : Option String
  sseTextBuffer : String
  streamGen : Nat
deriving DecidableEq, Repr

/-- Observable actions of one loop iteration. -/
inductive DetectorAction
  | forwardEvent (e : OpenCodeEvent)
  | spliceRecovery (stuckTools : String)
  | recoveryFailedError (stuckTools : String) (elapsedSecs : Nat)
  | terminateStalled (stuckTools : String) (elapsedSecs : Nat)
  | terminateCancelled
  | breakLoop
deriving DecidableEq, Repr

/-- Is this action the hard-abort Stalled termination. -/
def DetectorAction.isStall : DetectorAction → Bool
  | .terminateStalled _ _ => true
  | _ => false

/-- Does this action exit the loop (return or break in the Rust source). -/
def DetectorAction.isTerminal : DetectorAction → Bool
  | .terminateStalled _ _ => true
  | .terminateCancelled => true
  | .breakLoop => true
  | _ => false

/-- What the select loop wakes on: an event with its arrival time, a stuck
check timer firing (carrying the session-status answer: none models a failed
status query, some ts the reported running tools; and whether the recovery
dispatch would succeed), stream close, or cancellation. -/
inductive DetectorInput
  | event (now : Nat) (e : OpenCodeEvent)
  | timerTick (now : Nat) (status : Option (List String)) (recoveryOk : Bool)
  | channelClosed
  | cancelled
deriving DecidableEq, Repr

/-- OpenCodeAgent::check_for_stuck_tool: report the non-question running
tools (joined), or none when the query fails, no tool is running, or only the
interactive question tool is. -/
def checkForStuckTool (status : Option (List String)) : Option String :=
  match status with
  | none => none
  | some running_tools =>
    if running_tools.isEmpty then none
    else
      let non_question := running_tools.filter (fun name => name ≠ "question")
      if non_question.isEmpty then none
      else some (String.intercalate ", " non_question)

/-- The event arm of the select loop: stamp activity, reset the stall-episode
flag, track the current tool and the cumulative SSE text buffer; break on
MessageComplete, otherwise forward the event. -/
def detectorEventStep (s : DetectorState) (now : Nat) (e : OpenCodeEvent) :
    DetectorState × List DetectorAction :=
  let s := { s with lastEventTime := now, stuckToolWarned := false }
  let s :=
    match e with
    | .textDelta content =>
        if (content.trim).isEmpty then s else { s with sseTextBuffer := content }
    | .toolCall _ name => { s with currentTool := some name }
    | .toolResult _ _ => { s with currentTool := none }
    | _ => s
  match e with
  | .messageComplete => (s, [.breakLoop])
  | _ => (s, [.forwardEvent e])

/-- The recovery attempt inside the timer arm: when inactivity reached the
stall threshold and no recovery was attempted this episode, mark the episode
(stuck_tool_warned) and dispatch the recovery message — on success the new
stream is spliced in, the inactivity clock and episode flag reset; on failure
the diagnostic error is emitted and the original stream kept. -/
def detectorRecoveryStep (s : DetectorState) (now elapsed : Nat)
    (stuck_tools : String) (recoveryOk : Bool) : DetectorState × List DetectorAction :=
  if TOOL_STUCK_TIMEOUT ≤ elapsed && !s.stuckToolWarned then
    if recoveryOk then
      ({ s with streamGen := s.streamGen + 1
                lastEventTime := now
                lastStuckCheck := now
                stuckToolWarned := false
                currentTool := none },
       [DetectorAction.spliceRecovery stuck_tools])
    else
      ({ s with stuckToolWarned := true },
       [DetectorAction.recoveryFailedError stuck_tools elapsed])
  else (s, [])

/-- The timer arm of the select loop: only act when a full check interval has
passed; query for a stuck tool; when found, attempt the recovery step; then
hard-abort with Stalled when the configured timeout is non-zero and the
tick-start inactivity reached it (the elapsed value is the one computed at
the start of the tick, before any recovery reset). -/
def detectorTimerStep (cfg : DetectorConfig) (s : DetectorState) (now : Nat)
    (status : Option (List String)) (recoveryOk : Bool) :
    DetectorState × List DetectorAction :=
  if now - s.lastStuckCheck < TOOL_STUCK_CHECK_INTERVAL then (s, [])
  else
    match checkForStuckTool status with
    | none => ({ s with lastStuckCheck := now }, [])
    | some stuck_tools =>
      if 0 < cfg.tool_stuck_abort_timeout_secs
          && cfg.tool_stuck_abort_timeout_secs ≤ now - s.lastEventTime then
        ((detectorRecoveryStep { s with lastStuckCheck := now } now
            (now - s.lastEventTime) stuck_tools recoveryOk).1,
         (detectorRecoveryStep { s with lastStuckCheck := now } now
            (now - s.lastEventTime) stuck_tools recoveryOk).2
           ++ [DetectorAction.terminateStalled stuck_tools (now - s.lastEventTime)])
      else
        detectorRecoveryStep { s with lastStuckCheck := now } now
          (now - s.lastEventTime) stuck_tools recoveryOk

/-- One select iteration. -/
def detectorStep (cfg : DetectorConfig) (s : DetectorState) :
    DetectorInput → DetectorState × List DetectorAction
  | .event now e => detectorEventStep s now e
  | .timerTick now status recoveryOk => detectorTimerStep cfg s now status recoveryOk
  | .channelClosed => (s, [.breakLoop])
  | .cancelled => (s, [.terminateCancelled])

/-- Run the loop over a sequence of wake-ups, exiting at the first terminal
action as the Rust loop does. -/
def detectorRun (cfg : DetectorConfig) (s : DetectorState) :
    List DetectorInput → DetectorState × List DetectorAction
  | [] => (s, [])
  | i :: rest =>
      if (detectorStep cfg s i).2.any DetectorAction.isTerminal then
        detectorStep cfg s i
      else
        ((detectorRun cfg (detectorStep cfg s i).1 rest).1,
         (detectorStep cfg s i).2 ++ (detectorRun cfg (detectorStep cfg s i).1 rest).2)

/-- The detector configuration with the hard abort disabled. -/
def detectorCfgNoAbort : DetectorConfig := { tool_stuck_abort_timeout_secs := 0 }

theorem stall_is_terminal (a : DetectorAction) (h : a.isStall = true) :
    a.isTerminal = true := by
  cases a <;> first | rfl | (exfalso; cases h)

theorem detectorRecoveryStep_no_stall (s : DetectorState) (now elapsed : Nat)
    (stuck_tools : String) (recoveryOk : Bool) :
    ∀ a ∈ (detectorRecoveryStep s now elapsed stuck_tools recoveryOk).2,
      a.isStall = false := by
  unfold detectorRecoveryStep
  split
  · split <;> (intro a ha; simp at ha; rw [ha]; rfl)
  · intro a ha
    simp at ha

theorem detectorEventStep_no_stall (s : DetectorState) (now : Nat)
    (e : OpenCodeEvent) :
    ∀ a ∈ (detectorEventStep s now e).2, a.isStall = false := by
  unfold detectorEventStep
  cases e <;> (intro a ha; simp at ha; rw [ha]; rfl)

theorem detectorStep_no_stall (cfg : DetectorConfig)
    (hcfg : cfg.tool_stuck_abort_timeout_secs = 0) (s : DetectorState)
    (i : DetectorInput) (a : DetectorAction) (ha : a ∈ (detectorStep cfg s i).2) :
    a.isStall = false := by
  cases i with
  | channelClosed =>
      simp [detectorStep] at ha
      rw [ha]
      rfl
  | cancelled =>
      simp [detectorStep] at ha
      rw [ha]
      rfl
  | event now e =>
      exact detectorEventStep_no_stall s now e a ha
  | timerTick now status recoveryOk =>
      simp only [detectorStep, detectorTimerStep, hcfg] at ha
      split at ha
      · simp at ha
      · split at ha
        · simp at ha
        · rw [if_neg (by simp)] at ha
          exact detectorRecoveryStep_no_stall _ _ _ _ _ a ha

theorem detectorRun_no_stall (cfg : DetectorConfig)
    (hcfg : cfg.tool_stuck_abort_timeout_secs = 0) (s : DetectorState)
    (inputs : List DetectorInput) (a : DetectorAction)
    (ha : a ∈ (detectorRun cfg s inputs).2) : a.isStall = false := by
  induction inputs generalizing s with
  | nil => simp [detectorRun] at ha
  | cons i rest ih =>
      rw [detectorRun] at ha
      split at ha
      · exact detectorStep_no_stall cfg hcfg s i a ha
      · simp only [List.mem_append] at ha
        cases ha with
        | inl h => exact detectorStep_no_stall cfg hcfg s i a h
        | inr h => exact ih _ h

/-- Claim C2: with no hard-abort timeout configured, the detector only acts
after a full 120s check interval; a stuck tool is reported exactly when a
non-question tool is marked running; at 300s of inactivity with no recovery
attempted this episode a successful recovery splices in the new stream and
resets the inactivity clock; a failed recovery emits the diagnostic error and
keeps the original stream; and no run of the loop ever terminates the turn
with Stalled. -/
theorem stall_detector_recovery :
    (∀ (s : DetectorState) (now : Nat) (status : Option (List String))
      (recoveryOk : Bool), now - s.lastStuckCheck < TOOL_STUCK_CHECK_INTERVAL →
      detectorStep detectorCfgNoAbort s (.timerTick now status recoveryOk) = (s, [])) ∧
    (∀ ts : List String, checkForStuckTool (some ts) = none ↔
      ts.filter (fun name => name ≠ "question") = []) ∧
    (∀ (s : DetectorState) (now : Nat) (status : Option (List String)) (st : String),
      TOOL_STUCK_CHECK_INTERVAL ≤ now - s.lastStuckCheck →
      checkForStuckTool status = some st →
      TOOL_STUCK_TIMEOUT ≤ now - s.lastEventTime → s.stuckToolWarned = false →
      detectorStep detectorCfgNoAbort s (.timerTick now status true)
        = ({ s with lastStuckCheck := now
                    lastEventTime := now
                    stuckToolWarned := false
                    currentTool := none
                    streamGen := s.streamGen + 1 },
           [DetectorAction.spliceRecovery st])) ∧
    (∀ (s : DetectorState) (now : Nat) (status : Option (List String)) (st : String),
      TOOL_STUCK_CHECK_INTERVAL ≤ now - s.lastStuckCheck →
      checkForStuckTool status = some st →
      TOOL_STUCK_TIMEOUT ≤ now - s.lastEventTime → s.stuckToolWarned = false →
      detectorStep detectorCfgNoAbort s (.timerTick now status false)
        = ({ s with lastStuckCheck := now, stuckToolWarned := true },
           [DetectorAction.recoveryFailedError st (now - s.lastEventTime)])) ∧
    (∀ (s : DetectorState) (inputs : List DetectorInput) (a : DetectorAction),
      a ∈ (detectorRun detectorCfgNoAbort s inputs).2 → a.isStall = false) := by
  refine ⟨?_, ?_, ?_, ?_, ?_⟩
  · intro s now status recoveryOk h
    simp [detectorStep, detectorTimerStep, h]
  · intro ts
    cases ts with
    | nil => simp [checkForStuckTool]
    | cons x xs =>
        simp only [checkForStuckTool]
        rw [if_neg (by simp)]
        cases hf : (x :: xs).filter (fun name => name ≠ "question") with
        | nil => simp
        | cons y ys => simp
  · intro s now status st h1 h2 h3 h4
    show detectorTimerStep detectorCfgNoAbort s now status true = _
    unfold detectorTimerStep
    rw [if_neg (Nat.not_lt.mpr h1)]
    split
    · next hnone => rw [h2] at hnone; cases hnone
    · next stuck_tools hsome =>
        rw [h2] at hsome
        injection hsome with hst
        subst hst
        rw [if_neg (by simp [detectorCfgNoAbort])]
        unfold detectorRecoveryStep
        rw [if_pos (by simp [h3, h4])]
        rfl
  · intro s now status st h1 h2 h3 h4
    show detectorTimerStep detectorCfgNoAbort s now status false = _
    unfold detectorTimerStep
    rw [if_neg (Nat.not_lt.mpr h1)]
    split
    · next hnone => rw [h2] at hnone; cases hnone
    · next stuck_tools hsome =>
        rw [h2] at hsome
        injection hsome with hst
        subst hst
        rw [if_neg (by simp [detectorCfgNoAbort])]
        unfold detectorRecoveryStep
        rw [if_pos (by simp [h3, h4])]
        rfl
  · exact detectorRun_no_stall detectorCfgNoAbort rfl

/-- Fresh detector state at time zero. -/
def detectorInit : DetectorState :=
  { lastEventTime := 0, lastStuckCheck := 0, stuckToolWarned := false
    currentTool := none, sseTextBuffer := "", streamGen := 0 }

/-- Witness for the C2 theorem: a backend silent from t=0 that reports a bash
tool running gets a recovery splice at the t=360 check (the first check past
the 300s stall threshold), and the simulated run never emits a Stalled
termination. -/
theorem stall_detector_recovery_witness :
    detectorStep detectorCfgNoAbort { detectorInit with lastStuckCheck := 240 }
        (.timerTick 360 (some ["bash"]) true)
      = ({ detectorInit with
             lastStuckCheck := 360
             lastEventTime := 360
             streamGen := 1 },
         [DetectorAction.spliceRecovery "bash"]) ∧
    detectorStep detectorCfgNoAbort { detectorInit with lastStuckCheck := 240 }
        (.timerTick 360 (some ["bash"]) false)
      = ({ detectorInit with lastStuckCheck := 360, stuckToolWarned := true },
         [DetectorAction.recoveryFailedError "bash" 360]) ∧
    checkForStuckTool (some ["question"]) = none ∧
    (∀ a ∈ (detectorRun detectorCfgNoAbort detectorInit
        [.timerTick 120 (some ["bash"]) true, .timerTick 240 (some ["bash"]) true,
         .timerTick 360 (some ["bash"]) true, .timerTick 480 (some ["bash"]) true]).2,
      a.isStall = false) :=
  ⟨stall_detector_recovery.2.2.1 _ 360 (some ["bash"]) "bash"
      (by decide) (by decide) (by decide) rfl,
   stall_detector_recovery.2.2.2.1 _ 360 (some ["bash"]) "bash"
      (by decide) (by decide) (by decide) rfl,
   (stall_detector_recovery.2.1 ["question"]).mpr rfl,
   fun a ha => stall_detector_recovery.2.2.2.2 detectorInit _ a ha⟩

theorem detectorStep_stall_count (cfg : DetectorConfig) (s : DetectorState)
    (i : DetectorInput) :
    ((detectorStep cfg s i).2.filter DetectorAction.isStall).length ≤ 1 := by
  cases i with
  | channelClosed => simp [detectorStep, DetectorAction.isStall]
  | cancelled => simp [detectorStep, DetectorAction.isStall]
  | event now e =>
      have h := detectorEventStep_no_stall s now e
      calc ((detectorStep cfg s (.event now e)).2.filter DetectorAction.isStall).length
          = ([] : List DetectorAction).length := by
            congr 1
            rw [List.filter_eq_nil_iff]
            intro a ha
            simp [h a ha]
        _ ≤ 1 := by simp
  | timerTick now status recoveryOk =>
      simp only [detectorStep, detectorTimerStep]
      split
      · simp
      · split
        · simp
        · rename_i stuck_tools hst
          have hrec : ((detectorRecoveryStep { s with lastStuckCheck := now } now
              (now - s.lastEventTime) stuck_tools recoveryOk).2.filter
                DetectorAction.isStall) = [] := by
            rw [List.filter_eq_nil_iff]
            intro a ha
            simp [detectorRecoveryStep_no_stall _ _ _ _ _ a ha]
          split
          · rw [List.filter_append, hrec]
            simp [DetectorAction.isStall]
          · rw [hrec]
            simp

theorem detectorRun_stall_count (cfg : DetectorConfig) (s : DetectorState)
    (inputs : List DetectorInput) :
    ((detectorRun cfg s inputs).2.filter DetectorAction.isStall).length ≤ 1 := by
  induction inputs generalizing s with
  | nil => simp [detectorRun]
  | cons i rest ih =>
      rw [detectorRun]
      split
      · exact detectorStep_stall_count cfg s i
      · next hterm =>
          rw [List.filter_append]
          have hstep : ((detectorStep cfg s i).2.filter DetectorAction.isStall) = [] := by
            rw [List.filter_eq_nil_iff]
            intro a ha hstall
            exact hterm (List.any_eq_true.mpr ⟨a, ha, stall_is_terminal a hstall⟩)
          rw [hstep]
          simpa using ih (detectorStep cfg s i).1

/-- Configuration with a 400s hard-abort timeout (for the C3 counterexample). -/
def c3Cfg : DetectorConfig := { tool_stuck_abort_timeout_secs := 400 }

/-- A trace in which the backend emits no event at all for 600 seconds while
reporting no running tool at each stuck check. -/
def c3SilentTrace : List DetectorInput :=
  [.timerTick 120 (some []) true, .timerTick 240 (some []) true,
   .timerTick 360 (some []) true, .timerTick 480 (some []) true,
   .timerTick 600 (some []) true]

/-- C3 counterexample: with hard-abort timeout 400 configured, a backend
producing zero events for 600 seconds is never terminated with Stalled when
the session status reports no tool running — the hard ceiling as claimed does
not hold on inactivity alone. -/
theorem hard_abort_counterexample :
    c3Cfg.tool_stuck_abort_timeout_secs = 400 ∧
    ((detectorRun c3Cfg detectorInit c3SilentTrace).2.any DetectorAction.isStall
      = false) := by
  constructor
  · rfl
  · rfl

/-- Claim C3 (amended): with a non-zero hard-abort timeout T, a timer tick
terminates the turn with Stalled exactly when the check interval has passed,
the status reports a non-question tool running, and the tick-start inactivity
has reached T; a run of the loop emits at most one such termination; and a
successful recovery dispatch resets the inactivity measurement used by later
checks. -/
theorem hard_abort_amended :
    (∀ (cfg : DetectorConfig) (s : DetectorState) (now : Nat)
      (status : Option (List String)) (recoveryOk : Bool),
      0 < cfg.tool_stuck_abort_timeout_secs →
      (((detectorStep cfg s (.timerTick now status recoveryOk)).2.any
          DetectorAction.isStall) = true ↔
        (TOOL_STUCK_CHECK_INTERVAL ≤ now - s.lastStuckCheck ∧
         (∃ st, checkForStuckTool status = some st) ∧
         cfg.tool_stuck_abort_timeout_secs ≤ now - s.lastEventTime))) ∧
    (∀ (cfg : DetectorConfig) (s : DetectorState) (inputs : List DetectorInput),
      ((detectorRun cfg s inputs).2.filter DetectorAction.isStall).length ≤ 1) ∧
    (∀ (cfg : DetectorConfig) (s : DetectorState) (now : Nat)
      (status : Option (List String)) (st : String),
      TOOL_STUCK_CHECK_INTERVAL ≤ now - s.lastStuckCheck →
      checkForStuckTool status = some st →
      TOOL_STUCK_TIMEOUT ≤ now - s.lastEventTime → s.stuckToolWarned = false →
      now - s.lastEventTime < cfg.tool_stuck_abort_timeout_secs →
      (detectorStep cfg s (.timerTick now status true)).1.lastEventTime = now) := by
  refine ⟨?_, ?_, ?_⟩
  · intro cfg s now status recoveryOk hT
    show ((detectorTimerStep cfg s now status recoveryOk).2.any _) = true ↔ _
    unfold detectorTimerStep
    by_cases hint : now - s.lastStuckCheck < TOOL_STUCK_CHECK_INTERVAL
    · rw [if_pos hint]
      simp only [List.any_nil, Bool.false_eq_true, false_iff]
      intro hcon
      exact absurd hcon.1 (Nat.not_le.mpr hint)
    · rw [if_neg hint]
      split
      · next hnone =>
          simp only [List.any_nil, Bool.false_eq_true, false_iff]
          rintro ⟨-, ⟨st, hsome⟩, -⟩
          rw [hnone] at hsome
          cases hsome
      · next stuck_tools hsome =>
          by_cases habort : cfg.tool_stuck_abort_timeout_secs ≤ now - s.lastEventTime
          · rw [if_pos (by simp [hT, habort])]
            simp only [List.any_append, List.any_cons, List.any_nil]
            constructor
            · intro _
              exact ⟨Nat.le_of_not_lt hint, ⟨stuck_tools, hsome⟩, habort⟩
            · intro _
              simp [DetectorAction.isStall]
          · rw [if_neg (by simp [habort])]
            constructor
            · intro hany
              exfalso
              rcases List.any_eq_true.mp hany with ⟨a, ha, hsa⟩
              rw [detectorRecoveryStep_no_stall _ _ _ _ _ a ha] at hsa
              cases hsa
            · rintro ⟨-, -, h3⟩
              exact absurd h3 habort
  · exact detectorRun_stall_count
  · intro cfg s now status st h1 h2 h3 h4 h5
    show (detectorTimerStep cfg s now status true).1.lastEventTime = now
    unfold detectorTimerStep
    rw [if_neg (Nat.not_lt.mpr h1)]
    split
    · next hnone => rw [h2] at hnone; cases hnone
    · next stuck_tools hsome =>
        rw [if_neg (by
          simp only [Bool.and_eq_true, decide_eq_true_eq, not_and]
          intro _
          exact Nat.not_le.mpr h5)]
        unfold detectorRecoveryStep
        rw [if_pos (by simp [h3, h4])]
        rfl

/-- Witness for the amended C3 theorem: at T=350 with a bash tool stuck and
total silence, the t=360 tick both attempts recovery and hard-aborts with
Stalled; and at T=400 the same tick only recovers and resets the clock. -/
theorem hard_abort_amended_witness :
    (((detectorStep { tool_stuck_abort_timeout_secs := 350 } detectorInit
        (.timerTick 360 (some ["bash"]) true)).2.any DetectorAction.isStall) = true ∧
      (360 - detectorInit.lastEventTime = 360)) ∧
    ((detectorRun c3Cfg detectorInit c3SilentTrace).2.filter
        DetectorAction.isStall).length ≤ 1 ∧
    (detectorStep c3Cfg detectorInit
        (.timerTick 360 (some ["bash"]) true)).1.lastEventTime = 360 :=
  ⟨⟨(hard_abort_amended.1 { tool_stuck_abort_timeout_secs := 350 } detectorInit 360
        (some ["bash"]) true (by decide)).mpr
      ⟨by decide, ⟨"bash", rfl⟩, by decide⟩,
    rfl⟩,
   hard_abort_amended.2.1 c3Cfg detectorInit c3SilentTrace,
   hard_abort_amended.2.2 c3Cfg detectorInit 360 (some ["bash"]) "bash"
     (by decide) rfl (by decide) rfl (by decide)⟩

/-!
The Claude Code turn loop, from run_claudecode_turn in
src/api/mission_runner.rs: the process is spawned, its stdout is read line by
line, each parsed ClaudeEvent mutates the local accumulation state, and the
loop exits on a Result event, end of stream, read error, or cancellation
(which kills the child process).
-/

/-- Association-list update mirroring HashMap::insert (replace any existing
entry for the key; HashMaps are unordered, so entry order is a modelling
choice). -/
def setAssoc {α β : Type} [DecidableEq α] (m : List (α × β)) (k : α) (v : β) :
    List (α × β) :=
  (k, v) :: m.filter (fun p => p.1 ≠ k)

/-- Buffer update mirroring HashMap::entry(index).or_default().push_str(text). -/
def pushBuffer (m : List (Nat × String)) (k : Nat) (t : String) :
    List (Nat × String) :=
  if (m.lookup k).isSome then
    m.map (fun p => if p.1 = k then (p.1, p.2 ++ t) else p)
  else m ++ [(k, t)]

/-- Delta payload of a content_block_delta stream event, as read by
run_claudecode_turn (the ClaudeEvent schema lives in
src/backend/claudecode/client.rs; fields follow its usage). -/
structure ClaudeDelta where
  delta_type : String
  text : Option String
deriving DecidableEq, Repr

/-- content_block payload of a content_block_start stream event. -/
structure ClaudeBlockStart where
  block_type : String
  id : Option String
  name : Option String
deriving DecidableEq, Repr

/-- Stream events run_claudecode_turn inspects. -/
inductive StreamEvent
  | contentBlockDelta (index : Nat) (delta : ClaudeDelta)
  | contentBlockStart (index : Nat) (content_block : ClaudeBlockStart)
  | otherStreamEvent
deriving DecidableEq, Repr

/-- Content blocks of assistant and user events (tool inputs and payloads
kept as opaque strings). -/
inductive ContentBlock
  | text (text : String)
  | toolUse (id : String) (name : String) (input : String)
  | thinking (thinking : String)
  | toolResultBlock (tool_use_id : String) (content : String) (is_error : Bool)
  | otherBlock
deriving DecidableEq, Repr

/-- Claude CLI events parsed from stdout lines.  The Result cost is carried
already converted to cents (the USD float arithmetic is outside the model and
outside every claim). -/
inductive ClaudeEvent
  | system
  | streamEvent (event : StreamEvent)
  | assistant (content : List ContentBlock)
  | user (content : List ContentBlock)
  | result (is_error : Bool) (subtype : String) (result : Option String)
      (cost_cents : Option Nat)
deriving DecidableEq, Repr

/-- The mutable locals of the run_claudecode_turn read loop. -/
structure ClaudeTurnState where
  pending_tools : List (String × String)
  total_cost_cents : Nat
  final_result : String
  had_error : Bool
  block_types : List (Nat × String)
  thinking_buffer : List (Nat × String)
  text_buffer : List (Nat × String)
  last_thinking_len : Nat
deriving DecidableEq, Repr

/-- Initial loop state. -/
def claudeInitState : ClaudeTurnState :=
  { pending_tools := [], total_cost_cents := 0, final_result := ""
    had_error := false, block_types := [], thinking_buffer := []
    text_buffer := [], last_thinking_len := 0 }

/-- Process one assistant-message content block (the Assistant event arm). -/
def processAssistantBlock (st : ClaudeTurnState) : ContentBlock → ClaudeTurnState
  | .text t => if !t.isEmpty then { st with final_result := t } else st
  | .toolUse i n _ => { st with pending_tools := setAssoc st.pending_tools i n }
  | _ => st

/-- Process one parsed ClaudeEvent; the Bool is true when the loop breaks
(the Result event arm ends the loop). -/
def processClaudeEvent (st : ClaudeTurnState) : ClaudeEvent → ClaudeTurnState × Bool
  | .system => (st, false)
  | .streamEvent (.contentBlockDelta index delta) =>
      match delta.text with
      | none => (st, false)
      | some text =>
        if text.isEmpty then (st, false)
        else if delta.delta_type = "thinking_delta" then
          let tb := pushBuffer st.thinking_buffer index text
          let total := (tb.map (fun p => p.2.length)).sum
          if st.last_thinking_len < total then
            ({ st with thinking_buffer := tb, last_thinking_len := total }, false)
          else ({ st with thinking_buffer := tb }, false)
        else if delta.delta_type = "text_delta" then
          ({ st with text_buffer := pushBuffer st.text_buffer index text }, false)
        else (st, false)
  | .streamEvent (.contentBlockStart index cb) =>
      let st1 := { st with block_types := setAssoc st.block_types index cb.block_type }
      if cb.block_type = "tool_use" then
        match cb.id, cb.name with
        | some i, some n =>
            ({ st1 with pending_tools := setAssoc st1.pending_tools i n }, false)
        | _, _ => (st1, false)
      else (st1, false)
  | .streamEvent .otherStreamEvent => (st, false)
  | .assistant blocks => (blocks.foldl processAssistantBlock st, false)
  | .user _ => (st, false)
  | .result is_err subtype resOpt cost =>
      let st1 :=
        match cost with
        | some c => { st with total_cost_cents := c }
        | none => st
      if is_err || subtype = "error" then
        ({ st1 with had_error := true, final_result := resOpt.getD "Unknown error" }, true)
      else
        match resOpt with
        | some r => ({ st1 with final_result := r }, true)
        | none => (st1, true)

/-- What the read loop wakes on: the cancellation branch of the select, a
line (none models an unparseable line, which is logged and skipped), end of
stream, or a read error. -/
inductive TurnInput
  | cancelledInput
  | lineInput (parsed : Option ClaudeEvent)
  | eofInput
  | readErrorInput
deriving DecidableEq, Repr

/-- Result of the embedded run_claudecode_turn: the AgentResult, whether the
child process was killed (only the cancellation path kills it; normal exits
wait), and the loop state at exit. -/
structure ClaudeTurnOutcome where
  result : AgentResult
  killed : Bool
  finalState : ClaudeTurnState
deriving DecidableEq, Repr

/-- The epilogue after the loop breaks: wait for the child and build the
AgentResult from the accumulated final_result, cost and error flag. -/
def finishClaudeTurn (st : ClaudeTurnState) : ClaudeTurnOutcome :=
  if st.had_error then
    { result := (AgentResult.failure st.final_result st.total_cost_cents
        ).with_terminal_reason .LlmError
      killed := false, finalState := st }
  else
    { result := AgentResult.successResult st.final_result st.total_cost_cents
      killed := false, finalState := st }

/-- The run_claudecode_turn read loop over a sequence of wake-ups. -/
def runClaudeTurn (st : ClaudeTurnState) : List TurnInput → ClaudeTurnOutcome
  | [] => finishClaudeTurn st
  | .cancelledInput :: _ =>
      { result := (AgentResult.failure "Cancelled" 0).with_terminal_reason .Cancelled
        killed := true, finalState := st }
  | .eofInput :: _ => finishClaudeTurn st
  | .readErrorInput :: _ => finishClaudeTurn st
  | .lineInput none :: rest => runClaudeTurn st rest
  | .lineInput (some e) :: rest =>
      if (processClaudeEvent st e).2 then finishClaudeTurn (processClaudeEvent st e).1
      else runClaudeTurn (processClaudeEvent st e).1 rest

/-- Claim C6: MissionRunner::cancel signals the token when present without
touching any other field, is the identity when no turn is active (no token),
and a turn whose select observes the cancellation kills the child process and
returns TerminalReason::Cancelled. -/
theorem cancellation_semantics :
    (∀ (r : MissionRunner) (b : Bool), r.cancel_token = some b →
      r.cancel = { r with cancel_token := some true }) ∧
    (∀ r : MissionRunner, r.cancel_token = none → r.cancel = r) ∧
    (∀ (st : ClaudeTurnState) (rest : List TurnInput),
      runClaudeTurn st (.cancelledInput :: rest)
        = { result := (AgentResult.failure "Cancelled" 0).with_terminal_reason .Cancelled
            killed := true
            finalState := st }) := by
  refine ⟨?_, ?_, ?_⟩
  · intro r b h
    simp [MissionRunner.cancel, h]
  · intro r h
    simp [MissionRunner.cancel, h]
  · intro st rest
    rfl

/-- Witness for the C6 theorem at concrete inputs. -/
theorem cancellation_semantics_witness :
    sampleRunningRunner.cancel = { sampleRunningRunner with cancel_token := some true } ∧
    (MissionRunner.new 1 2 none none).cancel = MissionRunner.new 1 2 none none ∧
    runClaudeTurn claudeInitState [TurnInput.cancelledInput]
      = { result := (AgentResult.failure "Cancelled" 0).with_terminal_reason .Cancelled
          killed := true
          finalState := claudeInitState } :=
  ⟨cancellation_semantics.1 sampleRunningRunner false rfl,
   cancellation_semantics.2.1 (MissionRunner.new 1 2 none none) rfl,
   cancellation_semantics.2.2 claudeInitState []⟩

/-- The C8 scenario on the Claude Code path: text deltas A then B, then a
Result event with no result text. -/
def c8Inputs : List TurnInput :=
  [.lineInput (some (.streamEvent (.contentBlockDelta 0
      { delta_type := "text_delta", text := some "A" }))),
   .lineInput (some (.streamEvent (.contentBlockDelta 0
      { delta_type := "text_delta", text := some "B" }))),
   .lineInput (some (.result false "success" none none))]

/-- Claim C8 evaluated at the failing input: the Claude Code loop accumulates
the stream buffer "AB" but the final text of the turn is the empty string —
the buffer is never consulted, so the fallback the claim (and the loop's own
comment) describes does not happen on this backend path. -/
theorem claudecode_buffer_dropped :
    (runClaudeTurn claudeInitState c8Inputs).finalState.text_buffer = [(0, "AB")] ∧
    (runClaudeTurn claudeInitState c8Inputs).result.output = "" ∧
    (runClaudeTurn claudeInitState c8Inputs).result.success = true :=
  ⟨rfl, rfl, rfl⟩

/-!
The backend adapter conversion loop, from AmpBackend::send_message_streaming
(src/backend/amp/mod.rs) and ClaudeCodeBackend::send_message_streaming
(src/backend/claudecode/mod.rs): drain the CLI event channel, converting each
event while threading the pending-tools map, then send the synthesized
MessageComplete.
-/

/-- Modelled from the spec: the canonical ExecutionEvent union is declared in
src/backend/events.rs, which is not among the sources; the variants follow
the spec data-model section (incremental content, tool invocation request,
tool invocation result, error, terminal turn-complete marker). -/
inductive ExecutionEvent
  | contentDelta (text : String)
  | toolStart (call_id : String) (name : String)
  | toolResultEvent (call_id : String) (name : String) (payload : String)
  | errorEvent (message : String) (resumable : Bool)
  | messageComplete (session_id : String)
deriving DecidableEq, Repr

/-- Is this the terminal turn-complete marker. -/
def ExecutionEvent.isMessageComplete : ExecutionEvent → Bool
  | .messageComplete _ => true
  | _ => false

/-- The while-let drain of the conversion task: convert each CLI event with
convert_cli_event, threading the pending-tools map, emitting the conversion
results in order.  convert_cli_event lives in src/backend/shared.rs, which is
not among the sources, so the conversion function is a parameter. -/
def adapterConvertLoop {α : Type} (convert : α → List (String × String) →
    List ExecutionEvent × List (String × String)) :
    List (String × String) → List α → List ExecutionEvent
  | _, [] => []
  | pending, e :: rest =>
      (convert e pending).1 ++ adapterConvertLoop convert (convert e pending).2 rest

/-- The full outgoing canonical stream of send_message_streaming for one
turn: the converted events followed by the MessageComplete the task always
sends after the channel closes. -/
def sendMessageStreamingEvents {α : Type} (convert : α → List (String × String) →
    List ExecutionEvent × List (String × String)) (session_id : String)
    (cliEvents : List α) : List ExecutionEvent :=
  adapterConvertLoop convert [] cliEvents ++ [.messageComplete session_id]

/-- Modelled from the spec: convert_cli_event (src/backend/shared.rs) is not
among the sources.  Per the spec, translating individual backend lines yields
content, tool and error events, while the terminal turn-complete marker is
synthesized by the adapter itself at end-of-stream; a conversion therefore
never emits the terminal marker. -/
def ConvertNeverTerminal {α : Type} (convert : α → List (String × String) →
    List ExecutionEvent × List (String × String)) : Prop :=
  ∀ (e : α) (pending : List (String × String)),
    ∀ ev ∈ (convert e pending).1, ev.isMessageComplete = false

theorem adapterConvertLoop_no_complete {α : Type}
    (convert : α → List (String × String) →
      List ExecutionEvent × List (String × String))
    (h : ConvertNeverTerminal convert) (pending : List (String × String))
    (events : List α) :
    ∀ ev ∈ adapterConvertLoop convert pending events, ev.isMessageComplete = false := by
  induction events generalizing pending with
  | nil =>
      intro ev hev
      simp [adapterConvertLoop] at hev
  | cons e rest ih =>
      intro ev hev
      rw [adapterConvertLoop] at hev
      rcases List.mem_append.mp hev with h1 | h2
      · exact h e pending ev h1
      · exact ih _ ev h2

/-- Claim C5: for every turn, once the backend output stream ends, the
adapter's outgoing canonical stream contains exactly one MessageComplete and
it is the last event — even when the backend emitted no events at all. -/
theorem adapter_single_message_complete {α : Type}
    (convert : α → List (String × String) →
      List ExecutionEvent × List (String × String))
    (h : ConvertNeverTerminal convert) (session_id : String) (cliEvents : List α) :
    (sendMessageStreamingEvents convert session_id cliEvents).filter
        ExecutionEvent.isMessageComplete = [.messageComplete session_id] ∧
    (sendMessageStreamingEvents convert session_id cliEvents).getLast?
      = some (.messageComplete session_id) := by
  constructor
  · unfold sendMessageStreamingEvents
    rw [List.filter_append]
    have hnil : (adapterConvertLoop convert [] cliEvents).filter
        ExecutionEvent.isMessageComplete = [] := by
      rw [List.filter_eq_nil_iff]
      intro ev hev hmc
      rw [adapterConvertLoop_no_complete convert h [] cliEvents ev hev] at hmc
      cases hmc
    rw [hnil]
    rfl
  · unfold sendMessageStreamingEvents
    rw [List.getLast?_append]
    rfl

/-- A conversion emitting one content delta per CLI event (for the witness). -/
def sampleConvert : Unit → List (String × String) →
    List ExecutionEvent × List (String × String) :=
  fun _ pending => ([ExecutionEvent.contentDelta "x"], pending)

/-- Witness for the C5 theorem at concrete inputs. -/
theorem adapter_single_message_complete_witness :
    (sendMessageStreamingEvents sampleConvert "sess" [(), ()]).filter
        ExecutionEvent.isMessageComplete = [.messageComplete "sess"] ∧
    (sendMessageStreamingEvents sampleConvert "sess" [(), ()]).getLast?
      = some (.messageComplete "sess") :=
  adapter_single_message_complete sampleConvert
    (by
      intro e p ev hev
      simp [sampleConvert] at hev
      rw [hev]
      rfl)
    "sess" [(), ()]

/-!
The Frontend Tool Hub and the control actor's tool-result handling, from
src/api/control.rs.  The oneshot channel created by register is modelled by a
Nat token naming its receiver; resolve returns the delivery (receiver token,
value) it performs.
-/

/-- FrontendToolHub: tool_call_id to pending oneshot sender. -/
structure FrontendToolHub where
  pending : List (String × Nat)
deriving DecidableEq, Repr

/-- A hub with no pending registrations. -/
def FrontendToolHub.emptyHub : FrontendToolHub := { pending := [] }

/-- FrontendToolHub::register: create a oneshot channel (the fresh receiver
token), insert the sender under the id, return the receiver. -/
def FrontendToolHub.register (hub : FrontendToolHub) (tool_call_id : String)
    (fresh : Nat) : FrontendToolHub × Nat :=
  ({ pending := setAssoc hub.pending tool_call_id fresh }, fresh)

/-- FrontendToolHub::resolve: remove the pending sender for the id and send
the result through it; Err when the id has no pending entry. -/
def FrontendToolHub.resolve (hub : FrontendToolHub) (tool_call_id : String)
    (result : String) : Except Unit (FrontendToolHub × (Nat × String)) :=
  match hub.pending.lookup tool_call_id with
  | none => .error ()
  | some tx =>
      .ok ({ pending := hub.pending.filter (fun p => p.1 ≠ tool_call_id) },
           (tx, result))

/-- Control events relevant to the ToolResult command arm. -/
inductive CtrlEvent
  | errorEvent (message : String)
deriving DecidableEq, Repr

/-- The ControlCommand::ToolResult arm of control_actor_loop: resolve through
the hub; on error emit an Error event; either way the actor loop continues
(the Bool is true when it keeps running). -/
def actorToolResultStep (hub : FrontendToolHub) (tool_call_id name : String)
    (result : String) : FrontendToolHub × List CtrlEvent × Bool :=
  match hub.resolve tool_call_id result with
  | .ok (hub2, _) => (hub2, [], true)
  | .error _ =>
      (hub,
       [CtrlEvent.errorEvent
         ("Unknown tool_call_id " ++ tool_call_id ++ " for tool " ++ name)],
       true)

theorem lookup_setAssoc {β : Type} (m : List (String × β)) (k : String) (v : β) :
    (setAssoc m k v).lookup k = some v := by
  simp [setAssoc, List.lookup]

theorem lookup_filter_ne {β : Type} (m : List (String × β)) (k : String) :
    (m.filter (fun p => p.1 ≠ k)).lookup k = none := by
  induction m with
  | nil => rfl
  | cons p m ih =>
      by_cases h : p.1 = k
      · simpa [List.filter, h] using ih
      · have hb : (k == p.1) = false := by
          simp [Ne.symm h]
        simpa [List.filter, h, List.lookup, hb] using ih

/-- The hub with the entry for an id removed (the ok branch of resolve). -/
def FrontendToolHub.withoutEntry (hub : FrontendToolHub) (tool_call_id : String) :
    FrontendToolHub :=
  { pending := hub.pending.filter (fun p => p.1 ≠ tool_call_id) }

theorem resolve_after_register (hub : FrontendToolHub) (id : String) (fresh : Nat)
    (v : String) :
    ((hub.register id fresh).1.resolve id v)
      = .ok ((hub.register id fresh).1.withoutEntry id,
             ((hub.register id fresh).2, v)) := by
  show FrontendToolHub.resolve { pending := setAssoc hub.pending id fresh } id v = _
  unfold FrontendToolHub.resolve
  rw [lookup_setAssoc]
  rfl

theorem resolve_unknown (hub : FrontendToolHub) (id : String) (v : String)
    (h : hub.pending.lookup id = none) : hub.resolve id v = .error () := by
  unfold FrontendToolHub.resolve
  rw [h]

/-- Claim C7: register then resolve delivers the value to exactly the
receiver that registration returned and removes the entry; a second resolve
of the same id errors and delivers nothing; resolving a never-registered id
errors; and the actor reacts to a resolve error by emitting an Error event
and continuing its loop. -/
theorem tool_hub_rendezvous :
    (∀ (hub : FrontendToolHub) (id : String) (fresh : Nat) (v : String),
      ((hub.register id fresh).1.resolve id v)
        = .ok ((hub.register id fresh).1.withoutEntry id,
               ((hub.register id fresh).2, v))) ∧
    (∀ (hub : FrontendToolHub) (id : String) (fresh : Nat) (v w : String)
      (hub2 : FrontendToolHub) (d : Nat × String),
      ((hub.register id fresh).1.resolve id v) = .ok (hub2, d) →
      hub2.resolve id w = .error ()) ∧
    (∀ (hub : FrontendToolHub) (id : String) (v : String),
      hub.pending.lookup id = none → hub.resolve id v = .error ()) ∧
    (∀ (hub : FrontendToolHub) (id name v : String),
      hub.resolve id v = .error () →
      actorToolResultStep hub id name v
        = (hub,
           [CtrlEvent.errorEvent
             ("Unknown tool_call_id " ++ id ++ " for tool " ++ name)],
           true)) := by
  refine ⟨resolve_after_register, ?_, resolve_unknown, ?_⟩
  · intro hub id fresh v w hub2 d hok
    rw [resolve_after_register hub id fresh v] at hok
    injection hok with hpair
    have hhub2 : hub2 = (hub.register id fresh).1.withoutEntry id :=
      (congrArg Prod.fst hpair).symm
    rw [hhub2]
    apply resolve_unknown
    exact lookup_filter_ne _ id
  · intro hub id name v h
    unfold actorToolResultStep
    rw [h]

/-- Witness for the C7 theorem at concrete inputs: register id 42 to receiver
token 7, resolve delivers to token 7, the second resolve errors, resolving on
the empty hub errors, and the actor emits the Error event and continues. -/
theorem tool_hub_rendezvous_witness :
    ((FrontendToolHub.emptyHub.register "call-42" 7).1.resolve "call-42" "yes")
      = .ok ({ pending := [] }, (7, "yes")) ∧
    FrontendToolHub.emptyHub.resolve "call-42" "yes" = .error () ∧
    actorToolResultStep FrontendToolHub.emptyHub "call-42" "question" "yes"
      = (FrontendToolHub.emptyHub,
         [CtrlEvent.errorEvent
           "Unknown tool_call_id call-42 for tool question"],
         true) :=
  ⟨tool_hub_rendezvous.1 FrontendToolHub.emptyHub "call-42" 7 "yes",
   tool_hub_rendezvous.2.2.1 FrontendToolHub.emptyHub "call-42" "yes" rfl,
   tool_hub_rendezvous.2.2.2 FrontendToolHub.emptyHub "call-42" "question" "yes" rfl⟩

end Sandboxed
